import Mathlib

/-!
Verification development for the Blink peer overlay engine.

The definitions below are a shallow embedding of the Rust sources:
  * `blink_impl/src/lib.rs` — the identity bridge (`did_keypair_to_libp2p_keypair`,
    `libp2p_pub_to_did`);
  * `blink_impl/src/peer_to_peer_service.rs` — the compiled monolithic reactor:
    `generate_topic_from_key_exchange`, `handle_command`, the identify / gossipsub /
    connection-closed arms of `handle_event`, the reactor loop body and `send`;
  * `blink_impl/src/event_handlers/identify.rs` — the (uncompiled) event-handler
    iteration of the identify logic, which additionally emits `GeneratedTopic`;
  * `src/peer_to_peer_service/mod.rs` (root crate) — the early reactor iteration,
    whose cancellation check breaks the loop without emitting an event.

External crates (ed25519 / x25519 arithmetic from `did-key`, SHA-512 from
`hmac_sha512`, `base64`, `bincode`, the libp2p swarm, the `MultiPass` identity
directory, the `PocketDimension` cache and the tokio channels) are modelled at
their interface boundary: deterministic functions for the pure primitives and
explicit environment records for the fallible collaborator calls.
-/

namespace Blink

/-- Bytes are modelled as natural numbers `< 256`; byte strings as `List Nat`. -/
abbrev Bytes := List Nat

/-- Little-endian decomposition of a natural number into `k` bytes. -/
def toBytesLE : Nat → Nat → List Nat
  | 0, _ => []
  | k + 1, n => n % 256 :: toBytesLE k (n / 256)

/-- Big-endian decomposition of a natural number into `k` bytes. -/
def toBytesBE (k n : Nat) : List Nat :=
  (toBytesLE k n).reverse

/-- Reads a little-endian byte string back into a natural number. -/
def natOfBytesLE : List Nat → Nat
  | [] => 0
  | b :: bs => b + 256 * natOfBytesLE bs

/-- Reads a big-endian byte string into a natural number. -/
def natOfBytesBE (bs : List Nat) : Nat :=
  bs.foldl (fun acc b => acc * 256 + b) 0

/-- Splits a list into consecutive chunks of `n` elements. -/
def chunksOf (n : Nat) (l : List Nat) : List (List Nat) :=
  if h : n = 0 ∨ l = [] then []
  else l.take n :: chunksOf n (l.drop n)
termination_by l.length
decreasing_by
  push_neg at h
  have h1 : 0 < l.length := List.length_pos.mpr h.2
  have h2 : 0 < n := Nat.pos_of_ne_zero h.1
  simp only [List.length_drop]
  omega

/-! SHA-512, the boundary model of the external `hmac_sha512::Hash::hash`
function used by `generate_topic_from_key_exchange`.  Implemented directly
from FIPS 180-4 over `Nat` with explicit reduction modulo `2 ^ 64`; the round
constants are derived from the fractional parts of the square and cube roots
of the first primes, as the standard defines them. -/

/-- Addition of 64-bit words. -/
def add64 (a b : Nat) : Nat :=
  (a + b) % 2 ^ 64

/-- Right rotation of a 64-bit word by `n` bits. -/
def rotr64 (x n : Nat) : Nat :=
  (x / 2 ^ n + x % 2 ^ n * 2 ^ (64 - n)) % 2 ^ 64

/-- Logical right shift of a 64-bit word. -/
def shr64 (x n : Nat) : Nat :=
  x / 2 ^ n

/-- Bitwise complement of a 64-bit word. -/
def not64 (x : Nat) : Nat :=
  Nat.xor x (2 ^ 64 - 1)

/-- The `Ch` function of FIPS 180-4. -/
def ch64 (x y z : Nat) : Nat :=
  Nat.xor (Nat.land x y) (Nat.land (not64 x) z)

/-- The `Maj` function of FIPS 180-4. -/
def maj64 (x y z : Nat) : Nat :=
  Nat.xor (Nat.land x y) (Nat.xor (Nat.land x z) (Nat.land y z))

/-- The `Σ₀` function of SHA-512. -/
def bigSigma0 (x : Nat) : Nat :=
  Nat.xor (rotr64 x 28) (Nat.xor (rotr64 x 34) (rotr64 x 39))

/-- The `Σ₁` function of SHA-512. -/
def bigSigma1 (x : Nat) : Nat :=
  Nat.xor (rotr64 x 14) (Nat.xor (rotr64 x 18) (rotr64 x 41))

/-- The `σ₀` function of SHA-512. -/
def smallSigma0 (x : Nat) : Nat :=
  Nat.xor (rotr64 x 1) (Nat.xor (rotr64 x 8) (shr64 x 7))

/-- The `σ₁` function of SHA-512. -/
def smallSigma1 (x : Nat) : Nat :=
  Nat.xor (rotr64 x 19) (Nat.xor (rotr64 x 61) (shr64 x 6))

/-- Trial-division primality test, used only to derive the SHA-512 constants. -/
def isPrimeNat (n : Nat) : Bool :=
  decide (2 ≤ n) && (List.range n).all (fun d => decide (d < 2) || decide (n % d ≠ 0))

/-- The first eighty primes, `2, 3, …, 409`. -/
def sha512Primes : List Nat :=
  (List.range 410).filter isPrimeNat

/-- Integer cube root by binary search over the bit positions. -/
def icbrt (n : Nat) : Nat :=
  (List.range 67).reverse.foldl
    (fun acc i => if (acc + 2 ^ i) ^ 3 ≤ n then acc + 2 ^ i else acc) 0

/-- Initial SHA-512 state: the first 64 fractional bits of the square roots of
the first eight primes. -/
def sha512H0 : List Nat :=
  (sha512Primes.take 8).map (fun p => Nat.sqrt (p * 2 ^ 128) % 2 ^ 64)

/-- SHA-512 round constants: the first 64 fractional bits of the cube roots of
the first eighty primes. -/
def sha512K : List Nat :=
  sha512Primes.map (fun p => icbrt (p * 2 ^ 192) % 2 ^ 64)

/-- FIPS 180-4 padding: append `0x80`, zeros, and the 128-bit bit length so the
total length is a multiple of 128 bytes. -/
def sha512Pad (msg : List Nat) : List Nat :=
  msg ++ 0x80 :: List.replicate ((128 - (msg.length + 17) % 128) % 128) 0
      ++ toBytesBE 16 (8 * msg.length)

/-- Extends the sixteen message words of a block to the eighty-word schedule. -/
def sha512Schedule (w16 : List Nat) : List Nat :=
  (List.range 64).foldl
    (fun w _ =>
      let n := w.length
      w ++ [add64 (smallSigma1 (w.getD (n - 2) 0))
              (add64 (w.getD (n - 7) 0)
                (add64 (smallSigma0 (w.getD (n - 15) 0)) (w.getD (n - 16) 0)))])
    w16

/-- One SHA-512 round: updates the eight working registers with `(kᵢ, wᵢ)`. -/
def sha512Round (regs : List Nat) (kw : Nat × Nat) : List Nat :=
  let a := regs.getD 0 0
  let b := regs.getD 1 0
  let c := regs.getD 2 0
  let d := regs.getD 3 0
  let e := regs.getD 4 0
  let f := regs.getD 5 0
  let g := regs.getD 6 0
  let h := regs.getD 7 0
  let t1 := add64 h (add64 (bigSigma1 e) (add64 (ch64 e f g) (add64 kw.1 kw.2)))
  let t2 := add64 (bigSigma0 a) (maj64 a b c)
  [add64 t1 t2, a, b, c, add64 d t1, e, f, g]

/-- Compresses one 128-byte block into the running eight-word state. -/
def sha512Compress (h : List Nat) (block : List Nat) : List Nat :=
  let w := sha512Schedule ((chunksOf 8 block).map natOfBytesBE)
  let regs := (sha512K.zip w).foldl sha512Round h
  List.zipWith add64 h regs

/-- SHA-512 of a byte string, as a 64-byte string. -/
def sha512 (msg : List Nat) : List Nat :=
  (((chunksOf 128 (sha512Pad msg)).foldl sha512Compress sha512H0).map
    (toBytesBE 8)).flatten

/-! Base64, the boundary model of the external `base64::encode` used for the
topic name: the standard alphabet with `=` padding. -/

/-- The standard base64 alphabet. -/
def base64Table : List Char :=
  "ABCDEFGHIJKLMNOPQRSTUVWXYZabcdefghijklmnopqrstuvwxyz0123456789+/".toList

/-- The base64 character of a 6-bit group. -/
def b64char (n : Nat) : Char :=
  base64Table.getD n '='

/-- Standard base64 encoding of a byte string, three bytes to four characters
with `=` padding. -/
def base64Encode : List Nat → List Char
  | [] => []
  | [a] => [b64char (a / 4), b64char (a % 4 * 16), '=', '=']
  | [a, b] => [b64char (a / 4), b64char (a % 4 * 16 + b / 16), b64char (b % 16 * 4), '=']
  | a :: b :: c :: rest =>
    b64char (a / 4) :: b64char (a % 4 * 16 + b / 16) ::
      b64char (b % 16 * 4 + c / 64) :: b64char (c % 64) :: base64Encode rest

/-! The X25519 key exchange, the boundary model of the external `did-key`
crate calls in `generate_topic_from_key_exchange`
(`blink_impl/src/peer_to_peer_service.rs`, lines 354-366):

  * `Ed25519KeyPair::from_secret_key(seed).get_x25519()` hashes the 32-byte
    Ed25519 seed with SHA-512 and clamps the first 32 bytes, giving the X25519
    secret scalar (modelled exactly, in `x25519Secret`);
  * curve points are modelled by their Montgomery `u`-coordinates in the field
    of order `2 ^ 255 - 19`, with scalar multiplication modelled as
    exponentiation in the commutative monoid `ZMod curveP` — the commutative
    scalar action is the algebraic structure the Diffie-Hellman exchange
    relies on;
  * `Ed25519KeyPair::from_public_key(pub).get_x25519()` maps the Ed25519
    public key to the Montgomery `u`-coordinate of the same point; for a valid
    key pair this is the base point raised to the clamped secret, so
    `edPublicBytes` produces the public bytes of a seed directly in that form,
    and the conversion of received bytes decodes them into the field. -/

/-- The Curve25519 field order `2 ^ 255 - 19`. -/
def curveP : Nat := 2 ^ 255 - 19

instance : NeZero curveP := ⟨by norm_num [curveP]⟩

/-- Clamping of an X25519 secret scalar byte string
(`b[0] &= 248; b[31] &= 127; b[31] |= 64`). -/
def clampBytes (bs : List Nat) : List Nat :=
  bs.mapIdx (fun i b => if i = 0 then b &&& 248 else if i = 31 then b &&& 127 ||| 64 else b)

/-- The X25519 secret scalar of an Ed25519 seed: SHA-512 of the seed, first 32
bytes, clamped (`Ed25519KeyPair::from_secret_key(seed).get_x25519()`). -/
def x25519Secret (seed : List Nat) : Nat :=
  natOfBytesLE (clampBytes ((sha512 seed).take 32))

/-- The X25519 base point `u = 9`. -/
def curveBase : ZMod curveP := 9

/-- Binary exponentiation in the field, so the key exchange evaluates on
concrete inputs; proved equal to `·  ^ ·` in `fastPow_eq_pow`. -/
def fastPow (x : ZMod curveP) (n : Nat) : ZMod curveP :=
  if n = 0 then 1
  else if n % 2 = 1 then x * fastPow (x * x) (n / 2) else fastPow (x * x) (n / 2)
termination_by n
decreasing_by
  all_goals exact Nat.div_lt_self (Nat.pos_of_ne_zero (by assumption)) (by norm_num)

/-- The 32-byte little-endian encoding of a Montgomery `u`-coordinate. -/
def pointBytes (x : ZMod curveP) : List Nat :=
  toBytesLE 32 x.val

/-- Decoding of received Ed25519 public-key bytes into the Montgomery
`u`-coordinate used by the key exchange
(`Ed25519KeyPair::from_public_key(bytes).get_x25519()`). -/
def edPubToX25519 (bs : List Nat) : ZMod curveP :=
  (natOfBytesLE bs : ZMod curveP)

/-- The public-key bytes of a valid Ed25519 key pair with the given seed, in
Montgomery form: the base point raised to the clamped secret scalar. -/
def edPublicBytes (seed : List Nat) : List Nat :=
  pointBytes (fastPow curveBase (x25519Secret seed))

/-- Shallow embedding of `generate_topic_from_key_exchange`
(`blink_impl/src/peer_to_peer_service.rs`, lines 354-366; the identical copy
in `event_handlers/mod.rs`, lines 42-54): the caller's private seed is turned
into the X25519 secret, the peer's public bytes into the X25519 public point,
their Diffie-Hellman shared secret is hashed with SHA-512 and base64-encoded. -/
def generate_topic_from_key_exchange (privSeed theirPubBytes : List Nat) : String :=
  String.mk (base64Encode (sha512 (pointBytes
    (fastPow (edPubToX25519 theirPubBytes) (x25519Secret privSeed)))))

/-! The data model of the overlay: events (`blink_contract/src/lib.rs`), DIDs,
payloads, commands and the Peer-Topic Directory. -/

/-- The `Event` enum of `blink_contract/src/lib.rs`, lines 10-30. -/
inductive Event where
  | DialSuccessful (peer : String)
  | DialError (msg : String)
  | ConvertKeyError
  | SubscriptionError (msg : String)
  | NewListenAddr (addr : String)
  | ErrorAddingToCache (msg : String)
  | ErrorDeserializingData
  | ErrorSerializingData
  | ErrorPublishingData (msg : String)
  | GeneratedTopic (didPub : List Nat) (topic : String)
  | SubscribedToTopic (topic : String)
  | FailureToIdentifyPeer
  | PeerIdentified
  | FailedToSendMessage
  | FailureToDisconnectPeer
  | PeerConnectionClosed (peer : String)
  | ConnectionEstablished (peer : String)
  | TaskCancelled
  | CouldntFindTopicForDid
deriving DecidableEq, Repr

/-- A DID as the overlay observes it, identified by its Ed25519 public-key
bytes (`warp::crypto::DID`; the `did:key` string form is an injective encoding
of exactly these bytes). -/
structure DID where
  pubBytes : List Nat
deriving DecidableEq, Repr

/-- Model of `DID::to_string()`, the key used by the Peer-Topic Directory:
injective in the public bytes, so modelled by the bytes themselves. -/
def didToString (d : DID) : List Nat :=
  d.pubBytes

/-- Boundary model of a `Sata` payload (external `sata` crate): the recipient
list exposed by `recipients()`, plus the opaque encoded data. -/
structure Sata where
  recipientsField : Option (List DID)
  data : List Nat
deriving DecidableEq, Repr

/-- Model of `DialOpts`: an optional target peer id
(`dial_opts.get_peer_id()`). -/
structure DialOpts where
  peer : Option String
deriving DecidableEq, Repr

/-- The `BlinkCommand` enum of `blink_impl/src/peer_to_peer_service.rs`,
lines 52-57. -/
inductive BlinkCommand where
  | findNearest (peer : String)
  | dial (opts : DialOpts)
  | subscribe (topic : String)
  | publishToTopic (topic : String) (sata : Sata)
deriving DecidableEq, Repr

/-- The Peer-Topic Directory, `HashMap<String, String>` keyed by the DID
string form, modelled as an association list where the most recent insertion
shadows earlier ones. -/
abbrev PeerTopicMap := List (List Nat × String)

/-- Model of `HashMap::insert` on the directory. -/
def mapInsert (m : PeerTopicMap) (k : List Nat) (v : String) : PeerTopicMap :=
  (k, v) :: m

/-- Model of `HashMap::get` on the directory. -/
def mapLookup (m : PeerTopicMap) (k : List Nat) : Option String :=
  List.lookup k m

/-! The public `send` operation (`blink_impl/src/peer_to_peer_service.rs`,
lines 411-432): each recipient is looked up in the Peer-Topic Directory; a
resolved recipient gets a `PublishToTopic` command enqueued via
`publish_message_to_topic`; an unresolved recipient is passed over; the call
returns `Ok(())`.  The outcome records the commands enqueued and the events
emitted (there is no event-emitting statement in `send`, so the embedding can
only ever place `[]` there), with `ok` the `Result` value. -/

/-- Outcome of a `send` call. -/
structure SendOutcome where
  cmds : List BlinkCommand
  events : List Event
  ok : Bool
deriving DecidableEq, Repr

/-- One iteration of the recipient loop in `send`. -/
def sendStep (map : PeerTopicMap) (sata : Sata) (acc : SendOutcome) (item : DID) :
    SendOutcome :=
  match mapLookup map (didToString item) with
  | some k => ⟨acc.cmds ++ [.publishToTopic k sata], acc.events, acc.ok⟩
  | none => acc

/-- Shallow embedding of `PeerToPeerService::send`. -/
def send (map : PeerTopicMap) (sata : Sata) : SendOutcome :=
  match sata.recipientsField with
  | none => ⟨[], [], true⟩
  | some recips => recips.foldl (sendStep map sata) ⟨[], [], true⟩

/-- The commands `send` enqueues: one `PublishToTopic` per recipient the
directory resolves, in recipient order. -/
def sendResolved (map : PeerTopicMap) (sata : Sata) : List BlinkCommand :=
  (sata.recipientsField.getD []).filterMap
    (fun item => (mapLookup map (didToString item)).map
      (fun k => BlinkCommand.publishToTopic k sata))

/-! The command side of the reactor
(`PeerToPeerService::handle_command`, `blink_impl/src/peer_to_peer_service.rs`,
lines 137-198).  The swarm and the `bincode` serializer are external; their
outcomes are supplied by an environment record. -/

/-- Boundary environment for `handle_command`: the results of
`bincode::serialize`, `swarm.dial`, `gossip_sub.subscribe` and
`gossip_sub.publish`. -/
structure CmdEnv where
  serialize : Sata → Option (List Nat)
  dialResult : DialOpts → Except String Unit
  subscribeResult : String → Except String Unit
  publishResult : String → List Nat → Except String Unit

/-- Observable outcome of handling one command: the events emitted and the
swarm calls attempted. -/
structure CmdOutcome where
  events : List Event
  published : List (String × List Nat)
  subscribes : List String
  dials : List DialOpts
  kadQueries : List String
deriving DecidableEq, Repr

/-- Shallow embedding of `PeerToPeerService::handle_command`. -/
def handle_command (env : CmdEnv) : BlinkCommand → CmdOutcome
  | .findNearest p => ⟨[], [], [], [], [p]⟩
  | .dial opts =>
    match env.dialResult opts with
    | .ok _ => ⟨[.DialSuccessful (opts.peer.getD "")], [], [], [opts], []⟩
    | .error e => ⟨[.DialError e], [], [], [opts], []⟩
  | .subscribe addr =>
    match env.subscribeResult addr with
    | .ok _ => ⟨[.SubscribedToTopic addr], [], [addr], [], []⟩
    | .error e => ⟨[.SubscriptionError e], [], [addr], [], []⟩
  | .publishToTopic name sata =>
    match env.serialize sata with
    | some bytes =>
      match env.publishResult name bytes with
      | .ok _ => ⟨[], [(name, bytes)], [], [], []⟩
      | .error e => ⟨[.ErrorPublishingData e], [(name, bytes)], [], [], []⟩
    | none => ⟨[.ErrorSerializingData], [], [], [], []⟩

/-- The reactor's command stream: each received command is handled in turn by
`handle_command` (the `cmd = command_rx.recv()` arm of the loop). -/
def processCommands (env : CmdEnv) (cmds : List BlinkCommand) : List CmdOutcome :=
  cmds.map (handle_command env)

/-! The identity-verification protocol.  Two iterations exist in the sources:
the compiled one inside `handle_event`
(`blink_impl/src/peer_to_peer_service.rs`, lines 226-271) and the uncompiled
event-handler split (`blink_impl/src/event_handlers/identify.rs`, lines
36-78), which differs only by additionally emitting `GeneratedTopic` before
`SubscribedToTopic`.  The identity directory (`MultiPass::get_identity`), the
pub/sub subscribe and the disconnect are external calls supplied by an
environment record. -/

/-- Boundary environment for the identify handler. -/
structure IdentifyEnv where
  getIdentity : DID → Except String Unit
  subscribeResult : String → Except String Unit
  disconnectResult : String → Except String Unit

/-- Observable outcome of handling an `IdentifyEvent::Received`: the updated
Peer-Topic Directory, the events emitted, the subscriptions attempted and the
disconnects attempted. -/
structure IdentifyOutcome where
  map : PeerTopicMap
  events : List Event
  subscribes : List String
  disconnects : List String
deriving DecidableEq, Repr

/-- Model of `libp2p::identity::PublicKey`: the Ed25519 variant carries the
encoded key bytes; every other algorithm is collapsed into `other`. -/
inductive Libp2pPublicKey where
  | ed25519 (bytes : List Nat)
  | other
deriving DecidableEq, Repr

/-- Shallow embedding of `libp2p_pub_to_did` (`blink_impl/src/lib.rs`,
lines 20-29): an Ed25519 public key becomes the DID with those bytes, any
other key algorithm fails with `PublicKeyInvalid`. -/
def libp2p_pub_to_did : Libp2pPublicKey → Except String DID
  | .ed25519 bs => .ok ⟨bs⟩
  | .other => .error "PublicKeyInvalid"

/-- The events of the rejected branch's disconnect attempt:
`FailureToDisconnectPeer` exactly when `disconnect_peer_id` fails. -/
def disconnectEvents (env : IdentifyEnv) (peerId : String) : List Event :=
  match env.disconnectResult peerId with
  | .ok _ => []
  | .error _ => [.FailureToDisconnectPeer]

/-- Shallow embedding of the `IdentifyEvent::Received` arm of the compiled
`handle_event` (`blink_impl/src/peer_to_peer_service.rs`, lines 226-271):
convert the key, query the identity directory; on success derive the topic,
insert it into the directory, subscribe, and emit `SubscribedToTopic` then
`PeerIdentified` (or `SubscriptionError`); on failure emit
`FailureToIdentifyPeer` and attempt a disconnect. -/
def identify_received (env : IdentifyEnv) (ourSeed : List Nat) (map : PeerTopicMap)
    (peerId : String) (pk : Libp2pPublicKey) : IdentifyOutcome :=
  match libp2p_pub_to_did pk with
  | .error _ => ⟨map, [.ConvertKeyError], [], []⟩
  | .ok their =>
    match env.getIdentity their with
    | .ok _ =>
      let topic := generate_topic_from_key_exchange ourSeed their.pubBytes
      let map2 := mapInsert map (didToString their) topic
      match env.subscribeResult topic with
      | .ok _ => ⟨map2, [.SubscribedToTopic topic, .PeerIdentified], [topic], []⟩
      | .error e => ⟨map2, [.SubscriptionError e], [topic], []⟩
    | .error _ => ⟨map, .FailureToIdentifyPeer :: disconnectEvents env peerId, [], [peerId]⟩

/-- Shallow embedding of `IdentifyEventHandler::handle`
(`blink_impl/src/event_handlers/identify.rs`, lines 36-78), the uncompiled
iteration: identical to `identify_received` except that the success branch
emits `GeneratedTopic` before `SubscribedToTopic` and `PeerIdentified`. -/
def identify_received_handler (env : IdentifyEnv) (ourSeed : List Nat)
    (map : PeerTopicMap) (peerId : String) (pk : Libp2pPublicKey) : IdentifyOutcome :=
  match libp2p_pub_to_did pk with
  | .error _ => ⟨map, [.ConvertKeyError], [], []⟩
  | .ok their =>
    match env.getIdentity their with
    | .ok _ =>
      let topic := generate_topic_from_key_exchange ourSeed their.pubBytes
      let map2 := mapInsert map (didToString their) topic
      match env.subscribeResult topic with
      | .ok _ =>
        ⟨map2, [.GeneratedTopic their.pubBytes topic, .SubscribedToTopic topic,
                .PeerIdentified], [topic], []⟩
      | .error e => ⟨map2, [.SubscriptionError e], [topic], []⟩
    | .error _ => ⟨map, .FailureToIdentifyPeer :: disconnectEvents env peerId, [], [peerId]⟩

/-! The message router: the `GossipsubEvent::Message` arm of the compiled
`handle_event` (`blink_impl/src/peer_to_peer_service.rs`, lines 277-299).
The `bincode` decoder, the cache's `add_data` and the delivery channel are
external calls supplied by an environment record. -/

/-- Boundary environment for the message router. -/
structure RouterEnv where
  deserialize : List Nat → Option Sata
  addData : Sata → Except String Unit
  deliverOk : String × Sata → Bool

/-- Observable outcome of routing one inbound pub/sub message: the events
emitted, the cache writes attempted, and the pairs handed to the local
delivery channel. -/
structure RouteOutcome where
  events : List Event
  cacheWrites : List Sata
  delivered : List (String × Sata)
deriving DecidableEq, Repr

/-- The events of the cache write: `ErrorAddingToCache` exactly when
`add_data` fails. -/
def cacheEvents (env : RouterEnv) (info : Sata) : List Event :=
  match env.addData info with
  | .ok _ => []
  | .error e => [.ErrorAddingToCache e]

/-- The events of the delivery-channel send: `FailedToSendMessage` exactly
when the channel send fails. -/
def deliverEvents (env : RouterEnv) (topic : String) (info : Sata) : List Event :=
  if env.deliverOk (topic, info) then [] else [.FailedToSendMessage]

/-- Shallow embedding of the `GossipsubEvent::Message` arm of `handle_event`:
decode the payload; on success write it to the cache (logging a failure) and
hand the `(topic, payload)` pair to the delivery channel (logging a failure);
on decode failure emit `ErrorDeserializingData` and drop the message. -/
def handle_gossipsub_message (env : RouterEnv) (topic : String) (data : List Nat) :
    RouteOutcome :=
  match env.deserialize data with
  | some info =>
    ⟨cacheEvents env info ++ deliverEvents env topic info, [info], [(topic, info)]⟩
  | none => ⟨[.ErrorDeserializingData], [], []⟩

/-- Shallow embedding of the `SwarmEvent::ConnectionClosed` arm of
`handle_event` (`blink_impl/src/peer_to_peer_service.rs`, lines 334-337): the
only statement is the `PeerConnectionClosed` log; the Peer-Topic Directory is
not touched. -/
def handle_connection_closed (map : PeerTopicMap) (peerId : String) :
    PeerTopicMap × List Event :=
  (map, [.PeerConnectionClosed peerId])

/-! The reactor loop bodies.  One iteration is modelled as a function of the
cancellation flag and of the events the selected command/event handler would
emit; the second component of the result tells whether the loop continues. -/

/-- One iteration of the compiled reactor loop
(`blink_impl/src/peer_to_peer_service.rs`, lines 107-124; the same shape at
`blink_impl/src/peer_to_peer_service/peer_to_peer_service.rs`, lines 111-128):
if the cancellation flag is set, `TaskCancelled` is emitted; then the
`select!` arms run; the loop has no exit, so the iteration always continues. -/
def blinkReactorIteration (flag : Bool) (selectEvents : List Event) :
    List Event × Bool :=
  ((if flag then [Event.TaskCancelled] else []) ++ selectEvents, true)

/-- One iteration of the early reactor loop of the root crate
(`src/peer_to_peer_service/mod.rs`, lines 61-83): if the cancellation token
reads `true`, the task prints `leaving the loop` and `break`s — no event bus
exists in this iteration, so no event is emitted; otherwise the `select!` arms
run and the loop continues. -/
def earlyReactorIteration (flag : Bool) (selectEvents : List Event) :
    List Event × Bool :=
  if flag then ([], false) else (selectEvents, true)

/-! The identity bridge (`blink_impl/src/lib.rs`, lines 14-29).  The Ed25519
key generation shared by the `did-key` and `libp2p` crates (both RFC 8032) is
a parameter `edKeygen`; `SecretKey::from_bytes` fails unless the secret is
exactly 32 bytes. -/

/-- A DID keypair (`did_key::DIDKey` for Ed25519): the 32-byte seed exposed by
`private_key_bytes()` and the public bytes exposed by `public_key_bytes()`. -/
structure DIDKeyPair where
  seed : List Nat
  pubBytes : List Nat
deriving DecidableEq, Repr

/-- The DID identity of a keypair: its public bytes. -/
def DIDKeyPair.did (kp : DIDKeyPair) : DID :=
  ⟨kp.pubBytes⟩

/-- A libp2p Ed25519 keypair: the secret bytes, and the public key the
library derives from them. -/
structure Libp2pKeypair where
  seed : List Nat
  pubBytes : List Nat
deriving DecidableEq, Repr

/-- Model of `Keypair::public()` on a libp2p Ed25519 keypair. -/
def Libp2pKeypair.public (kp : Libp2pKeypair) : Libp2pPublicKey :=
  .ed25519 kp.pubBytes

/-- Shallow embedding of `did_keypair_to_libp2p_keypair`
(`blink_impl/src/lib.rs`, lines 14-18): take the private seed, build a libp2p
secret key (rejecting seeds that are not 32 bytes), and let the library derive
the public half with `edKeygen`. -/
def did_keypair_to_libp2p_keypair (edKeygen : List Nat → List Nat)
    (kp : DIDKeyPair) : Except String Libp2pKeypair :=
  if kp.seed.length = 32 then .ok ⟨kp.seed, edKeygen kp.seed⟩
  else .error "invalid secret key length"

/-! Concrete fixtures used to instantiate theorems with hypotheses at
checkable inputs. -/

/-- An identify environment whose external calls all succeed. -/
def envAllOk : IdentifyEnv :=
  ⟨fun _ => .ok (), fun _ => .ok (), fun _ => .ok ()⟩

/-- An identify environment whose directory rejects every DID and whose
disconnect attempts fail. -/
def envReject : IdentifyEnv :=
  ⟨fun _ => .error "IdentityDoesntExist", fun _ => .ok (),
   fun _ => .error "cannot disconnect"⟩

/-- A payload with no recipients. -/
def sataPlain : Sata := ⟨none, [42]⟩

/-- A payload addressed to a single DID that no directory entry resolves. -/
def sataToAbsent : Sata := ⟨some [⟨[1, 2]⟩], [7]⟩

/-- A command environment whose serializer always fails and whose swarm calls
all succeed. -/
def cmdEnvNoSer : CmdEnv :=
  ⟨fun _ => none, fun _ => .ok (), fun _ => .ok (), fun _ _ => .ok ()⟩

/-- A router environment that decodes every frame to `sataPlain`, whose cache
always fails, and whose delivery channel accepts. -/
def routerEnvCacheFail : RouterEnv :=
  ⟨fun _ => some sataPlain, fun _ => .error "cache full", fun _ => true⟩

/-- A one-entry Peer-Topic Directory. -/
def mapFixture : PeerTopicMap := [([5], "topic-five")]

/-- The DID whose entry `mapFixture` holds. -/
def didFixture : DID := ⟨[5]⟩

/-- The identity function as a concrete Ed25519 key-generation instance for
the round-trip witness. -/
def edKeygenId : List Nat → List Nat := fun bs => bs

/-- A concrete valid DID keypair for the round-trip witness. -/
def kpFixture : DIDKeyPair := ⟨List.replicate 32 0, List.replicate 32 0⟩

/-! Helper lemmas. -/

theorem natOfBytesLE_toBytesLE : ∀ (k n : Nat), n < 256 ^ k →
    natOfBytesLE (toBytesLE k n) = n := by
  intro k
  induction k with
  | zero => intro n h; simp [pow_zero] at h; simp [toBytesLE, natOfBytesLE, h]
  | succ k ih =>
    intro n h
    have hdiv : n / 256 < 256 ^ k := by
      rw [Nat.div_lt_iff_lt_mul (by norm_num : 0 < 256)]
      calc n < 256 ^ (k + 1) := h
        _ = 256 ^ k * 256 := by rw [pow_succ]
    simp only [toBytesLE, natOfBytesLE, ih (n / 256) hdiv]
    omega

theorem curveP_lt_pow32 : curveP < 256 ^ 32 := by
  norm_num [curveP]

theorem edPubToX25519_pointBytes (x : ZMod curveP) :
    edPubToX25519 (pointBytes x) = x := by
  unfold edPubToX25519 pointBytes
  rw [natOfBytesLE_toBytesLE 32 x.val (lt_trans (ZMod.val_lt x) curveP_lt_pow32)]
  exact ZMod.natCast_rightInverse x

theorem fastPow_eq_pow : ∀ (n : Nat) (x : ZMod curveP), fastPow x n = x ^ n := by
  intro n
  induction n using Nat.strong_induction_on with
  | _ n ih =>
    intro x
    rw [fastPow]
    by_cases h0 : n = 0
    · simp [h0]
    · have hlt : n / 2 < n := Nat.div_lt_self (Nat.pos_of_ne_zero h0) (by norm_num)
      rw [if_neg h0]
      by_cases h1 : n % 2 = 1
      · rw [if_pos h1, ih (n / 2) hlt, mul_pow, ← pow_add]
        have hn : n = n / 2 + n / 2 + 1 := by omega
        calc x * x ^ (n / 2 + n / 2) = x ^ (n / 2 + n / 2 + 1) := (pow_succ' x _).symm
          _ = x ^ n := by rw [← hn]
      · rw [if_neg h1, ih (n / 2) hlt, mul_pow, ← pow_add]
        have hn : n = n / 2 + n / 2 := by omega
        rw [← hn]

theorem sendStep_foldl (map : PeerTopicMap) (sata : Sata) :
    ∀ (recips : List DID) (acc : SendOutcome),
      recips.foldl (sendStep map sata) acc =
        ⟨acc.cmds ++ recips.filterMap
            (fun item => (mapLookup map (didToString item)).map
              (fun k => BlinkCommand.publishToTopic k sata)),
          acc.events, acc.ok⟩ := by
  intro recips
  induction recips with
  | nil => intro acc; simp
  | cons r rs ih =>
    intro acc
    cases h : mapLookup map (didToString r) with
    | none => simp [sendStep, h, ih]
    | some k => simp [sendStep, h, ih]

theorem send_spec (map : PeerTopicMap) (sata : Sata) :
    send map sata = ⟨sendResolved map sata, [], true⟩ := by
  cases hr : sata.recipientsField with
  | none => simp [send, sendResolved, hr]
  | some recips => simp [send, sendResolved, hr, sendStep_foldl]

/-! The claims. -/

/-- C1: Topic derivation is symmetric: for any two valid Ed25519 key pairs A
and B (each given by its seed, with public bytes `edPublicBytes` of that
seed), deriving the pairwise topic from A's private key and B's public key
yields the same topic string as deriving it from B's private key and A's
public key. -/
theorem generate_topic_symmetric (aSeed bSeed : List Nat) :
    generate_topic_from_key_exchange aSeed (edPublicBytes bSeed) =
      generate_topic_from_key_exchange bSeed (edPublicBytes aSeed) := by
  unfold generate_topic_from_key_exchange edPublicBytes
  rw [edPubToX25519_pointBytes, edPubToX25519_pointBytes, fastPow_eq_pow,
    fastPow_eq_pow, fastPow_eq_pow, fastPow_eq_pow, pow_right_comm]

/-- C2 counterexample: calling `send` with one recipient absent from the
Peer-Topic Directory completes without error but emits no event at all — in
particular no `CouldntFindTopicForDid` (`RecipientTopicNotFound`-class) event
is ever produced, contradicting the claim that one is emitted. -/
theorem send_absent_recipient_emits_no_event :
    send [] sataToAbsent = ⟨[], [], true⟩ ∧
      Event.CouldntFindTopicForDid ∉ (send [] sataToAbsent).events := by
  exact ⟨rfl, by decide⟩

/-- C2 (amended): for every call to `send`, a recipient whose DID is absent
from the Peer-Topic Directory is skipped silently — no event is emitted for
it — and processing continues with the remaining recipients: the call
completes without error and enqueues exactly one publish per resolved
recipient, in order. -/
theorem send_skips_unresolved_silently (map : PeerTopicMap) (sata : Sata) :
    send map sata = ⟨sendResolved map sata, [], true⟩ ∧
      (send map sata).events = [] := by
  refine ⟨send_spec map sata, ?_⟩
  rw [send_spec]

/-- C3: the identity bridge is a two-sided inverse for the supported Ed25519
algorithm: for every DID whose keypair is a valid Ed25519 seed (32 bytes, the
public half derived from the seed by the shared RFC 8032 key generation
`edKeygen`), converting it with `did_keypair_to_libp2p_keypair` and then
converting the public half back with `libp2p_pub_to_did` yields a DID equal
to the original. -/
theorem did_libp2p_roundtrip (edKeygen : List Nat → List Nat) (kp : DIDKeyPair)
    (hlen : kp.seed.length = 32) (hvalid : kp.pubBytes = edKeygen kp.seed) :
    (did_keypair_to_libp2p_keypair edKeygen kp).bind
      (fun nk => libp2p_pub_to_did nk.public) = .ok kp.did := by
  unfold did_keypair_to_libp2p_keypair
  rw [if_pos hlen]
  simp [Except.bind, Libp2pKeypair.public, libp2p_pub_to_did, ← hvalid, DIDKeyPair.did]

/-- Witness for C3 at a concrete valid keypair. -/
theorem did_libp2p_roundtrip_witness :
    (did_keypair_to_libp2p_keypair edKeygenId kpFixture).bind
      (fun nk => libp2p_pub_to_did nk.public) = .ok kpFixture.did :=
  did_libp2p_roundtrip edKeygenId kpFixture (by decide) rfl

/-- C4 counterexample: in the compiled reactor's identify arm
(`blink_impl/src/peer_to_peer_service.rs`, lines 236-256), a successful
validation with a successful subscribe emits only `SubscribedToTopic` and
`PeerIdentified`: no `GeneratedTopic` (`TopicGenerated`) event appears, so the
claimed three-event sequence does not occur there. -/
theorem identify_validated_omits_generated_topic :
    (identify_received envAllOk [3] [] "peer" (.ed25519 [1, 2])).events =
        [.SubscribedToTopic (generate_topic_from_key_exchange [3] [1, 2]),
         .PeerIdentified] ∧
      ∀ d t, Event.GeneratedTopic d t ∉
        (identify_received envAllOk [3] [] "peer" (.ed25519 [1, 2])).events := by
  have h1 : (identify_received envAllOk [3] [] "peer" (.ed25519 [1, 2])).events =
      [.SubscribedToTopic (generate_topic_from_key_exchange [3] [1, 2]),
       .PeerIdentified] := rfl
  refine ⟨h1, fun d t => ?_⟩
  rw [h1]
  simp

/-- C4 (amended): when identity-directory validation succeeds and the
subscribe succeeds, the protocol derives the pairwise topic, inserts
`(peer DID → topic)` into the Peer-Topic Directory and issues the subscribe in
both iterations; the compiled reactor then emits `SubscribedToTopic`,
`PeerIdentified` in that order, while the uncompiled event-handler iteration
emits `GeneratedTopic`, `SubscribedToTopic`, `PeerIdentified` in that order. -/
theorem identify_validated_flow (env : IdentifyEnv) (ourSeed : List Nat)
    (map : PeerTopicMap) (peerId : String) (bts : List Nat)
    (hid : env.getIdentity ⟨bts⟩ = .ok ())
    (hsub : env.subscribeResult (generate_topic_from_key_exchange ourSeed bts) = .ok ()) :
    identify_received env ourSeed map peerId (.ed25519 bts) =
      ⟨mapInsert map bts (generate_topic_from_key_exchange ourSeed bts),
       [.SubscribedToTopic (generate_topic_from_key_exchange ourSeed bts),
        .PeerIdentified],
       [generate_topic_from_key_exchange ourSeed bts], []⟩ ∧
    identify_received_handler env ourSeed map peerId (.ed25519 bts) =
      ⟨mapInsert map bts (generate_topic_from_key_exchange ourSeed bts),
       [.GeneratedTopic bts (generate_topic_from_key_exchange ourSeed bts),
        .SubscribedToTopic (generate_topic_from_key_exchange ourSeed bts),
        .PeerIdentified],
       [generate_topic_from_key_exchange ourSeed bts], []⟩ := by
  constructor
  · simp [identify_received, libp2p_pub_to_did, hid, hsub, didToString]
  · simp [identify_received_handler, libp2p_pub_to_did, hid, hsub, didToString]

/-- Witness for C4 (amended) at a concrete all-succeeding environment. -/
theorem identify_validated_flow_witness :
    identify_received envAllOk [3] [] "p" (.ed25519 [4]) =
      ⟨mapInsert [] [4] (generate_topic_from_key_exchange [3] [4]),
       [.SubscribedToTopic (generate_topic_from_key_exchange [3] [4]),
        .PeerIdentified],
       [generate_topic_from_key_exchange [3] [4]], []⟩ ∧
    identify_received_handler envAllOk [3] [] "p" (.ed25519 [4]) =
      ⟨mapInsert [] [4] (generate_topic_from_key_exchange [3] [4]),
       [.GeneratedTopic [4] (generate_topic_from_key_exchange [3] [4]),
        .SubscribedToTopic (generate_topic_from_key_exchange [3] [4]),
        .PeerIdentified],
       [generate_topic_from_key_exchange [3] [4]], []⟩ :=
  identify_validated_flow envAllOk [3] [] "p" [4] rfl rfl

/-- C5: when the identity directory rejects a peer, no Peer-Topic Directory
entry is created (the directory component of the outcome is the unchanged
input map), a `FailureToIdentifyPeer` event is emitted, a disconnect of the
peer is attempted, and exactly when the disconnect attempt fails an
additional `FailureToDisconnectPeer` event follows; nothing is retried. -/
theorem identify_rejected_flow (env : IdentifyEnv) (ourSeed : List Nat)
    (map : PeerTopicMap) (peerId : String) (bts : List Nat) (e : String)
    (hid : env.getIdentity ⟨bts⟩ = .error e) :
    identify_received env ourSeed map peerId (.ed25519 bts) =
      ⟨map, .FailureToIdentifyPeer :: disconnectEvents env peerId, [], [peerId]⟩ := by
  simp [identify_received, libp2p_pub_to_did, hid]

/-- Witness for C5 at a rejecting directory whose disconnect also fails. -/
theorem identify_rejected_flow_witness :
    identify_received envReject [3] [] "p" (.ed25519 [4]) =
      ⟨[], [.FailureToIdentifyPeer, .FailureToDisconnectPeer], [], ["p"]⟩ := by
  have h := identify_rejected_flow envReject [3] [] "p" [4] "IdentityDoesntExist" rfl
  simpa [disconnectEvents, envReject] using h

/-- C6: for every `Publish` command whose payload fails to serialize, the
reactor emits `ErrorSerializingData` and drops the command — nothing is
published and nothing is retried — and the command stream continues: every
following command is processed exactly as it would have been. -/
theorem publish_serialization_failure_contained (env : CmdEnv) (t : String)
    (s : Sata) (h : env.serialize s = none) :
    handle_command env (.publishToTopic t s) =
        ⟨[.ErrorSerializingData], [], [], [], []⟩ ∧
      ∀ rest, processCommands env (.publishToTopic t s :: rest) =
        ⟨[.ErrorSerializingData], [], [], [], []⟩ :: processCommands env rest := by
  have h1 : handle_command env (.publishToTopic t s) =
      ⟨[.ErrorSerializingData], [], [], [], []⟩ := by
    simp [handle_command, h]
  exact ⟨h1, fun rest => by simp [processCommands, h1]⟩

/-- Witness for C6: the failing publish is dropped with the event, and the
next command (a subscribe) is still processed. -/
theorem publish_serialization_failure_contained_witness :
    handle_command cmdEnvNoSer (.publishToTopic "t" sataPlain) =
        ⟨[.ErrorSerializingData], [], [], [], []⟩ ∧
      processCommands cmdEnvNoSer [.publishToTopic "t" sataPlain, .subscribe "x"] =
        [⟨[.ErrorSerializingData], [], [], [], []⟩,
         ⟨[.SubscribedToTopic "x"], [], ["x"], [], []⟩] := by
  have h := publish_serialization_failure_contained cmdEnvNoSer "t" sataPlain rfl
  refine ⟨h.1, ?_⟩
  rw [h.2 [.subscribe "x"]]
  rfl

/-- C7: for every inbound pub/sub message whose payload decodes successfully,
a failing `add_data` call on the cache emits `ErrorAddingToCache` but does not
block delivery: the `(topic, payload)` pair is still handed to the local
delivery channel. -/
theorem cache_failure_does_not_block_delivery (env : RouterEnv) (t : String)
    (d : List Nat) (info : Sata) (e : String)
    (h1 : env.deserialize d = some info) (h2 : env.addData info = .error e) :
    handle_gossipsub_message env t d =
      ⟨.ErrorAddingToCache e :: deliverEvents env t info, [info], [(t, info)]⟩ := by
  simp [handle_gossipsub_message, h1, cacheEvents, h2]

/-- Witness for C7 at an always-failing cache: only `ErrorAddingToCache` is
emitted and the message is still delivered. -/
theorem cache_failure_does_not_block_delivery_witness :
    handle_gossipsub_message routerEnvCacheFail "topic" [9] =
      ⟨[.ErrorAddingToCache "cache full"], [sataPlain], [("topic", sataPlain)]⟩ := by
  have h := cache_failure_does_not_block_delivery routerEnvCacheFail "topic" [9]
    sataPlain "cache full" rfl rfl
  simpa [deliverEvents, routerEnvCacheFail] using h

/-- C8: every connection-closed event emits `PeerConnectionClosed` regardless
of the peer's prior validation state (the handler is the same for every map
and peer), leaves the Peer-Topic Directory unchanged, and an already-inserted
`(peer DID → topic)` entry is retained, so `send` still resolves that
recipient to its topic afterwards. -/
theorem connection_closed_preserves_directory (map : PeerTopicMap)
    (peerId : String) (d : DID) (t : String) (bs : List Nat)
    (h : mapLookup map (didToString d) = some t) :
    (handle_connection_closed map peerId).1 = map ∧
    (handle_connection_closed map peerId).2 = [.PeerConnectionClosed peerId] ∧
    (send (handle_connection_closed map peerId).1 ⟨some [d], bs⟩).cmds =
      [.publishToTopic t ⟨some [d], bs⟩] := by
  refine ⟨rfl, rfl, ?_⟩
  show (send map ⟨some [d], bs⟩).cmds = _
  rw [send_spec]
  simp [sendResolved, h]

/-- Witness for C8 at a one-entry directory. -/
theorem connection_closed_preserves_directory_witness :
    (handle_connection_closed mapFixture "p").1 = mapFixture ∧
    (handle_connection_closed mapFixture "p").2 = [.PeerConnectionClosed "p"] ∧
    (send (handle_connection_closed mapFixture "p").1 ⟨some [didFixture], [7]⟩).cmds =
      [.publishToTopic "topic-five" ⟨some [didFixture], [7]⟩] :=
  connection_closed_preserves_directory mapFixture "p" didFixture "topic-five" [7]
    (by decide)

/-- C9 counterexample: in the root crate's reactor
(`src/peer_to_peer_service/mod.rs`, lines 61-67), an iteration that observes
the cancellation flag set emits no `TaskCancelled` event and terminates the
loop — contradicting both that every such iteration emits `TaskCancelled` and
that setting the flag does not by itself terminate the reactor loop. -/
theorem early_reactor_cancellation_breaks_loop :
    earlyReactorIteration true [] = ([], false) ∧
      Event.TaskCancelled ∉ (earlyReactorIteration true []).1 := by
  exact ⟨rfl, by decide⟩

/-- C9 (amended): the cancellation flag is checked once per reactor loop
iteration.  In the compiled `blink_impl` reactor, every iteration observing
the flag set first emits `TaskCancelled` and the loop never exits; an
iteration observing it clear emits nothing extra.  In the early root-crate
reactor, an iteration observing the flag set instead breaks the loop at once
without emitting any event. -/
theorem cancellation_flag_iteration_behavior (selectEvents : List Event) :
    blinkReactorIteration true selectEvents =
        (Event.TaskCancelled :: selectEvents, true) ∧
      blinkReactorIteration false selectEvents = (selectEvents, true) ∧
      earlyReactorIteration true selectEvents = ([], false) :=
  ⟨rfl, rfl, rfl⟩

/-- C10: if `send` is called with a payload that carries no recipients at all,
or with recipients none of which has a Peer-Topic Directory entry, the call
returns `Ok(())` without enqueueing any publish command and without emitting
any event. -/
theorem send_without_resolvable_recipients_is_noop (map : PeerTopicMap)
    (sata : Sata)
    (h : sata.recipientsField = none ∨
      ∀ d ∈ sata.recipientsField.getD [], mapLookup map (didToString d) = none) :
    send map sata = ⟨[], [], true⟩ := by
  rw [send_spec]
  have hres : sendResolved map sata = [] := by
    unfold sendResolved
    cases h with
    | inl h0 => simp [h0]
    | inr h0 => exact List.filterMap_eq_nil_iff.mpr (fun a ha => by simp [h0 a ha])
  rw [hres]

/-- Witness for C10: a recipient with no entry in a nonempty directory. -/
theorem send_without_resolvable_recipients_is_noop_witness :
    send mapFixture sataToAbsent = ⟨[], [], true⟩ :=
  send_without_resolvable_recipients_is_noop mapFixture sataToAbsent
    (Or.inr (by decide))

end Blink

